import Mathlib

/-!
Shallow embedding of `src/backend/src/agent.py` (the lead-capture core of a
voice SDR agent) and proofs about its specification.

The embedded code is:
* class `LeadManager` (agent.py lines 69-107): the `profile` dict with six
  optional string fields, and the methods `update`, `is_complete`,
  `save_to_disk`;
* the module-level global `lead_state = LeadManager()` (agent.py line 110);
* class `SDRTools` (agent.py lines 114-135) with the two tool methods
  `update_lead_profile` and `submit_lead`.

Python `None` is embedded as `Option.none`; a Python `str` value as
`Option.some s`.  Methods are embedded as state transformers that return
their result together with the state they leave behind.  The leads JSON file
(`LEADS_FILE = "leads_db.json"`) is embedded at the parsed level as a
`LeadsFile` value distinguishing every outcome the read half of
`save_to_disk` can observe: absent, unreadable at the OS level, non-UTF-8
bytes, UTF-8 text that is not valid JSON, valid JSON that is not a list, or
a decoded list of records (`json.dump`/`json.load` round-tripping is
assumed).  Exceptions the code does not catch are embedded as `Except`
error results.
-/

namespace SDRAgent

/-- The keys of the `self.profile` dict created in `LeadManager.__init__`
(agent.py lines 72-79). -/
inductive Field where
  | name
  | company
  | email
  | use_case
  | budget
  | timeline
deriving DecidableEq, Repr

/-- The Lead Profile: the `self.profile` dict of `LeadManager`.  Every field
starts as Python `None` (`Option.none`) and holds `some s` once assigned the
string `s`. -/
structure Profile where
  name : Option String
  company : Option String
  email : Option String
  use_case : Option String
  budget : Option String
  timeline : Option String
deriving DecidableEq, Repr

/-- `LeadManager.__init__` (agent.py lines 71-79): all six fields `None`. -/
def LeadManager.initProfile : Profile :=
  { name := none, company := none, email := none,
    use_case := none, budget := none, timeline := none }

/-- `self.profile[k] = v` for a known key `k` and string value `v`. -/
def Profile.set (p : Profile) (k : Field) (v : String) : Profile :=
  match k with
  | .name => { p with name := some v }
  | .company => { p with company := some v }
  | .email => { p with email := some v }
  | .use_case => { p with use_case := some v }
  | .budget => { p with budget := some v }
  | .timeline => { p with timeline := some v }

/-- Read a profile field by key. -/
def Profile.get (p : Profile) (k : Field) : Option String :=
  match k with
  | .name => p.name
  | .company => p.company
  | .email => p.email
  | .use_case => p.use_case
  | .budget => p.budget
  | .timeline => p.timeline

/-- `LeadManager.update(self, **kwargs)` (agent.py lines 81-85):
`for k, v in kwargs.items(): if v is not None: self.profile[k] = v`.
The keyword arguments are embedded as an association list of key/value
pairs, iterated in order; a `None` value is skipped, any other value
(including the empty string) is stored. -/
def LeadManager.update (p : Profile) (kwargs : List (Field × Option String)) : Profile :=
  kwargs.foldl
    (fun q kv =>
      match kv.2 with
      | none => q
      | some v => q.set kv.1 v)
    p

/-- Python truthiness of a profile entry: `None` and `""` are falsy, every
other string is truthy. -/
def truthy : Option String → Bool
  | none => false
  | some s => !(s == "")

/-- `LeadManager.is_complete(self)` (agent.py lines 87-89):
`return all([self.profile['name'], self.profile['use_case']])`.
Embedded as a state transformer returning the boolean together with the
profile the method body leaves behind; the body contains no assignment to
`self.profile`, so the returned profile is the input one. -/
def LeadManager.is_complete (p : Profile) : Bool × Profile :=
  ((truthy p.name && truthy p.use_case), p)

/-- `SDRTools.update_lead_profile` (agent.py lines 117-130): forwards its six
optional keyword arguments to `lead_state.update(name=name, company=company,
email=email, use_case=use_case, budget=budget, timeline=timeline)` and
returns the acknowledgement string.  Embedded as a transformer of the profile
the tool instance is bound to. -/
def SDRTools.update_lead_profile (p : Profile)
    (name company email use_case budget timeline : Option String) :
    String × Profile :=
  ("Lead profile updated successfully.",
   LeadManager.update p
     [(Field.name, name), (Field.company, company), (Field.email, email),
      (Field.use_case, use_case), (Field.budget, budget), (Field.timeline, timeline)])

/-- The six optional arguments of one `update_lead_profile` tool call. -/
structure ToolArgs where
  name : Option String
  company : Option String
  email : Option String
  use_case : Option String
  budget : Option String
  timeline : Option String
deriving DecidableEq, Repr

/-- Apply one `update_lead_profile` tool call and keep the resulting profile. -/
def callUpdate (p : Profile) (a : ToolArgs) : Profile :=
  (SDRTools.update_lead_profile p a.name a.company a.email a.use_case a.budget a.timeline).2

/-- Run a sequence of `update_lead_profile` tool calls on the fresh profile of
a new conversation. -/
def runUpdates (calls : List ToolArgs) : Profile :=
  calls.foldl callUpdate LeadManager.initProfile

/-- The last non-`None` value in a list of supplied optional values, starting
from a previous value `v0`. -/
def lastSuppliedFrom (v0 : Option String) (l : List (Option String)) : Option String :=
  l.foldl
    (fun acc o =>
      match o with
      | none => acc
      | some v => some v)
    v0

/-- The last non-`None` value supplied in a list, or `none` when every entry
is `None`. -/
def lastSupplied (l : List (Option String)) : Option String :=
  lastSuppliedFrom none l

theorem callUpdate_name (p : Profile) (a : ToolArgs) :
    (callUpdate p a).name =
      match a.name with
      | none => p.name
      | some v => some v := by
  obtain ⟨n, c, e, u, b, t⟩ := a
  cases n <;> cases c <;> cases e <;> cases u <;> cases b <;> cases t <;> rfl

theorem callUpdate_company (p : Profile) (a : ToolArgs) :
    (callUpdate p a).company =
      match a.company with
      | none => p.company
      | some v => some v := by
  obtain ⟨n, c, e, u, b, t⟩ := a
  cases n <;> cases c <;> cases e <;> cases u <;> cases b <;> cases t <;> rfl

theorem callUpdate_email (p : Profile) (a : ToolArgs) :
    (callUpdate p a).email =
      match a.email with
      | none => p.email
      | some v => some v := by
  obtain ⟨n, c, e, u, b, t⟩ := a
  cases n <;> cases c <;> cases e <;> cases u <;> cases b <;> cases t <;> rfl

theorem callUpdate_use_case (p : Profile) (a : ToolArgs) :
    (callUpdate p a).use_case =
      match a.use_case with
      | none => p.use_case
      | some v => some v := by
  obtain ⟨n, c, e, u, b, t⟩ := a
  cases n <;> cases c <;> cases e <;> cases u <;> cases b <;> cases t <;> rfl

theorem callUpdate_budget (p : Profile) (a : ToolArgs) :
    (callUpdate p a).budget =
      match a.budget with
      | none => p.budget
      | some v => some v := by
  obtain ⟨n, c, e, u, b, t⟩ := a
  cases n <;> cases c <;> cases e <;> cases u <;> cases b <;> cases t <;> rfl

theorem callUpdate_timeline (p : Profile) (a : ToolArgs) :
    (callUpdate p a).timeline =
      match a.timeline with
      | none => p.timeline
      | some v => some v := by
  obtain ⟨n, c, e, u, b, t⟩ := a
  cases n <;> cases c <;> cases e <;> cases u <;> cases b <;> cases t <;> rfl

theorem lastSuppliedFrom_cons (v0 : Option String) (o : Option String)
    (l : List (Option String)) :
    lastSuppliedFrom v0 (o :: l) =
      lastSuppliedFrom (match o with | none => v0 | some v => some v) l := rfl

theorem foldl_callUpdate_name (calls : List ToolArgs) (p : Profile) :
    (calls.foldl callUpdate p).name = lastSuppliedFrom p.name (calls.map ToolArgs.name) := by
  induction calls generalizing p with
  | nil => rfl
  | cons a l ih =>
      simp only [List.foldl_cons, List.map_cons, lastSuppliedFrom_cons]
      rw [ih, callUpdate_name]

theorem foldl_callUpdate_company (calls : List ToolArgs) (p : Profile) :
    (calls.foldl callUpdate p).company =
      lastSuppliedFrom p.company (calls.map ToolArgs.company) := by
  induction calls generalizing p with
  | nil => rfl
  | cons a l ih =>
      simp only [List.foldl_cons, List.map_cons, lastSuppliedFrom_cons]
      rw [ih, callUpdate_company]

theorem foldl_callUpdate_email (calls : List ToolArgs) (p : Profile) :
    (calls.foldl callUpdate p).email =
      lastSuppliedFrom p.email (calls.map ToolArgs.email) := by
  induction calls generalizing p with
  | nil => rfl
  | cons a l ih =>
      simp only [List.foldl_cons, List.map_cons, lastSuppliedFrom_cons]
      rw [ih, callUpdate_email]

theorem foldl_callUpdate_use_case (calls : List ToolArgs) (p : Profile) :
    (calls.foldl callUpdate p).use_case =
      lastSuppliedFrom p.use_case (calls.map ToolArgs.use_case) := by
  induction calls generalizing p with
  | nil => rfl
  | cons a l ih =>
      simp only [List.foldl_cons, List.map_cons, lastSuppliedFrom_cons]
      rw [ih, callUpdate_use_case]

theorem foldl_callUpdate_budget (calls : List ToolArgs) (p : Profile) :
    (calls.foldl callUpdate p).budget =
      lastSuppliedFrom p.budget (calls.map ToolArgs.budget) := by
  induction calls generalizing p with
  | nil => rfl
  | cons a l ih =>
      simp only [List.foldl_cons, List.map_cons, lastSuppliedFrom_cons]
      rw [ih, callUpdate_budget]

theorem foldl_callUpdate_timeline (calls : List ToolArgs) (p : Profile) :
    (calls.foldl callUpdate p).timeline =
      lastSuppliedFrom p.timeline (calls.map ToolArgs.timeline) := by
  induction calls generalizing p with
  | nil => rfl
  | cons a l ih =>
      simp only [List.foldl_cons, List.map_cons, lastSuppliedFrom_cons]
      rw [ih, callUpdate_timeline]

/-- The spec's reading of a field's final value: the last *non-empty* value
supplied for it, where empty or omitted values never overwrite.  Written from
the spec's words, to be compared with what the code computes. -/
def lastNonEmptyFrom (v0 : Option String) (l : List (Option String)) : Option String :=
  l.foldl
    (fun acc o =>
      match o with
      | none => acc
      | some v => if v = "" then acc else some v)
    v0

/-- An `update_lead_profile(name="Ana")` call. -/
def argsAna : ToolArgs := ⟨some "Ana", none, none, none, none, none⟩

/-- An `update_lead_profile(name="")` call: the name is supplied as the empty
string. -/
def argsEmptyName : ToolArgs := ⟨some "", none, none, none, none, none⟩

/-- C2, counterexample: after `update_lead_profile(name="Ana")` followed by
`update_lead_profile(name="")`, the code leaves `name = ""`, while the last
non-empty value supplied for `name` is `"Ana"` — a supplied empty string does
overwrite an existing non-empty value, contradicting the claim. -/
theorem claim_C2_counterexample :
    (runUpdates [argsAna, argsEmptyName]).name = some "" ∧
    lastNonEmptyFrom none ([argsAna, argsEmptyName].map ToolArgs.name) = some "Ana" ∧
    (some "" : Option String) ≠ some "Ana" := by
  refine ⟨rfl, rfl, by decide⟩

/-- C2, amended: for every sequence of `update_lead_profile` calls and every
profile field, the field's final value equals the last non-`None` value
supplied for that field across the sequence (or stays `None` when none was
supplied); a supplied `None` (or omitted field) never overwrites an existing
value.  An explicitly supplied empty string, however, does overwrite. -/
theorem claim_C2_last_non_none_wins (calls : List ToolArgs) :
    (runUpdates calls).name = lastSupplied (calls.map ToolArgs.name) ∧
    (runUpdates calls).company = lastSupplied (calls.map ToolArgs.company) ∧
    (runUpdates calls).email = lastSupplied (calls.map ToolArgs.email) ∧
    (runUpdates calls).use_case = lastSupplied (calls.map ToolArgs.use_case) ∧
    (runUpdates calls).budget = lastSupplied (calls.map ToolArgs.budget) ∧
    (runUpdates calls).timeline = lastSupplied (calls.map ToolArgs.timeline) := by
  refine ⟨?_, ?_, ?_, ?_, ?_, ?_⟩
  · exact foldl_callUpdate_name calls LeadManager.initProfile
  · exact foldl_callUpdate_company calls LeadManager.initProfile
  · exact foldl_callUpdate_email calls LeadManager.initProfile
  · exact foldl_callUpdate_use_case calls LeadManager.initProfile
  · exact foldl_callUpdate_budget calls LeadManager.initProfile
  · exact foldl_callUpdate_timeline calls LeadManager.initProfile

/-- C6: `is_complete()` returns `true` iff the profile's `name` and `use_case`
fields are both currently non-empty strings, and the call leaves the Lead
Profile state unchanged. -/
theorem claim_C6_is_complete (p : Profile) :
    ((LeadManager.is_complete p).1 = true ↔
      ((∃ s, p.name = some s ∧ s ≠ "") ∧ (∃ s, p.use_case = some s ∧ s ≠ ""))) ∧
    (LeadManager.is_complete p).2 = p := by
  refine ⟨?_, rfl⟩
  rcases hn : p.name with _ | s1 <;> rcases hu : p.use_case with _ | s2 <;>
    simp [LeadManager.is_complete, truthy, hn, hu]

/-- C7: `update_lead_profile` is idempotent — calling it twice in a row with
identical arguments produces the same result (acknowledgement string and
profile state) as calling it once. -/
theorem claim_C7_update_idempotent (p : Profile)
    (name company email use_case budget timeline : Option String) :
    SDRTools.update_lead_profile
        (SDRTools.update_lead_profile p name company email use_case budget timeline).2
        name company email use_case budget timeline =
      SDRTools.update_lead_profile p name company email use_case budget timeline := by
  cases name <;> cases company <;> cases email <;> cases use_case <;>
    cases budget <;> cases timeline <;> rfl

/-- C9: in `LeadManager.update` (as invoked by `update_lead_profile`), a field
is left unchanged exactly when the value supplied for it is `None`; every
non-`None` value, including the empty string, overwrites the field. -/
theorem claim_C9_none_is_skip_criterion (p : Profile) (a : ToolArgs) :
    ((callUpdate p a).name = match a.name with | none => p.name | some v => some v) ∧
    ((callUpdate p a).company = match a.company with | none => p.company | some v => some v) ∧
    ((callUpdate p a).email = match a.email with | none => p.email | some v => some v) ∧
    ((callUpdate p a).use_case = match a.use_case with | none => p.use_case | some v => some v) ∧
    ((callUpdate p a).budget = match a.budget with | none => p.budget | some v => some v) ∧
    ((callUpdate p a).timeline = match a.timeline with | none => p.timeline | some v => some v) := by
  exact ⟨callUpdate_name p a, callUpdate_company p a, callUpdate_email p a,
    callUpdate_use_case p a, callUpdate_budget p a, callUpdate_timeline p a⟩

/-- A wall-clock instant as produced by Python's `datetime.now()`.  A real
`datetime` object keeps `1 <= year <= 9999`, `1 <= month <= 12`,
`1 <= day <= 31`, `hour < 24`, `minute < 60`, `second < 60` and
`microsecond < 1000000`; theorems that depend on the printed shape carry the
bounds they need as hypotheses. -/
structure DateTime where
  year : Nat
  month : Nat
  day : Nat
  hour : Nat
  minute : Nat
  second : Nat
  microsecond : Nat
deriving DecidableEq, Repr

/-- The decimal digit character for `n % 10`. -/
def digitChar (n : Nat) : Char :=
  match n % 10 with
  | 0 => '0'
  | 1 => '1'
  | 2 => '2'
  | 3 => '3'
  | 4 => '4'
  | 5 => '5'
  | 6 => '6'
  | 7 => '7'
  | 8 => '8'
  | _ => '9'

/-- Zero-padded two-digit decimal rendering (`%02d` for values below 100). -/
def pad2 (n : Nat) : List Char := [digitChar (n / 10), digitChar n]

/-- Zero-padded four-digit decimal rendering (`%04d` for values below 10000). -/
def pad4 (n : Nat) : List Char :=
  [digitChar (n / 1000), digitChar (n / 100), digitChar (n / 10), digitChar n]

/-- Zero-padded six-digit decimal rendering (`%06d` for values below 1000000). -/
def pad6 (n : Nat) : List Char :=
  [digitChar (n / 100000), digitChar (n / 10000), digitChar (n / 1000),
   digitChar (n / 100), digitChar (n / 10), digitChar n]

/-- The character sequence of CPython's `datetime.isoformat()`:
`YYYY-MM-DDTHH:MM:SS`, followed by `.ffffff` only when the microsecond part
is nonzero.  Faithful to CPython for field values in `datetime`'s ranges. -/
def isoChars (d : DateTime) : List Char :=
  pad4 d.year ++ '-' ::
    (pad2 d.month ++ '-' ::
      (pad2 d.day ++ 'T' ::
        (pad2 d.hour ++ ':' ::
          (pad2 d.minute ++ ':' ::
            (pad2 d.second ++
              (if d.microsecond = 0 then [] else '.' :: pad6 d.microsecond))))))

/-- `datetime.now().isoformat()` as a string. -/
def isoformat (d : DateTime) : String := ⟨isoChars d⟩

/-- Consume exactly `n` decimal digits from the front of a character list,
returning the rest. -/
def takeDigits : Nat → List Char → Option (List Char)
  | 0, l => some l
  | _ + 1, [] => none
  | n + 1, c :: l => if c.isDigit then takeDigits n l else none

/-- Consume one expected character from the front of a character list. -/
def takeChar (c : Char) : List Char → Option (List Char)
  | [] => none
  | c' :: l => if c' = c then some l else none

/-- Decides whether a string has the ISO-8601 extended date-time shape
`YYYY-MM-DDTHH:MM:SS` with an optional `.ffffff` fractional-seconds part —
the shapes `datetime.isoformat()` produces. -/
def isISO8601 (s : String) : Bool :=
  match (((((((((((takeDigits 4 s.data).bind (takeChar '-')).bind
      (takeDigits 2)).bind (takeChar '-')).bind (takeDigits 2)).bind
      (takeChar 'T')).bind (takeDigits 2)).bind (takeChar ':')).bind
      (takeDigits 2)).bind (takeChar ':')).bind (takeDigits 2)) with
  | none => false
  | some [] => true
  | some rest =>
      match (takeChar '.' rest).bind (takeDigits 6) with
      | some [] => true
      | _ => false

/-- A Lead Record: the dict built by `save_to_disk` from `profile.copy()`
plus the added `timestamp` key (agent.py lines 92-93). -/
structure Entry where
  name : Option String
  company : Option String
  email : Option String
  use_case : Option String
  budget : Option String
  timeline : Option String
  timestamp : String
deriving DecidableEq, Repr

/-- The record `save_to_disk` builds: `entry = self.profile.copy()` followed
by `entry["timestamp"] = datetime.now().isoformat()`. -/
def mkEntry (p : Profile) (ts : String) : Entry :=
  ⟨p.name, p.company, p.email, p.use_case, p.budget, p.timeline, ts⟩

/-- The observable states of the leads file `LEADS_FILE = "leads_db.json"`,
at the parsed level, separating every distinct behaviour of the read half of
`save_to_disk`: the file does not exist; it exists but opening or reading it
fails at the OS level; its bytes are not UTF-8; it is UTF-8 text that is not
valid JSON; it is valid JSON whose top-level value is not a list; or it
decodes to a list of records. -/
inductive LeadsFile where
  | absent
  | unreadable
  | nonUTF8
  | undecodable
  | nonList
  | records (l : List Entry)
deriving DecidableEq, Repr

/-- The exceptions that can escape `save_to_disk`'s read-modify-write.  The
`try` at agent.py lines 97-101 catches only `json.JSONDecodeError`, so these
propagate to the caller of `submit_lead`. -/
inductive PyError where
  | unicodeDecodeError
  | osError
  | attributeError
deriving DecidableEq, Repr

/-- The Python value bound to `existing_leads` when the read half finishes
without raising: the initial or decoded list, or a decoded JSON value that
is not a list (on which the later `.append` will fail). -/
inductive Loaded where
  | list (l : List Entry)
  | notAList
deriving DecidableEq, Repr

/-- The read half of `save_to_disk` (agent.py lines 95-101):
`existing_leads = []`; if the file exists, `open` it and `json.load` it,
catching only `json.JSONDecodeError`.  A missing file and undecodable JSON
text leave the empty list; an OS-level failure raises `OSError` and
non-UTF-8 bytes raise `UnicodeDecodeError`, neither of which the `except`
clause catches; valid non-list JSON is returned as-is. -/
def readLeads : LeadsFile → Except PyError Loaded
  | .absent => .ok (.list [])
  | .unreadable => .error .osError
  | .nonUTF8 => .error .unicodeDecodeError
  | .undecodable => .ok (.list [])
  | .nonList => .ok .notAList
  | .records l => .ok (.list l)

/-- `LeadManager.save_to_disk(self)` (agent.py lines 91-107): copy the
profile, attach the timestamp, read `existing_leads` from the file, call
`existing_leads.append(entry)` — an `AttributeError` when the decoded value
is not a list — and write the whole list back.  The first component is the
method's outcome: `ok` on normal return, or the exception that propagates;
the remaining components are the profile and file afterwards.  The method
never assigns to `self.profile`, so the returned profile is always the input
one, and an exception is raised before the write, leaving the file as it
was.  The `datetime.now()` instant is passed in as a parameter. -/
def LeadManager.save_to_disk (p : Profile) (now : DateTime) (disk : LeadsFile) :
    Except PyError Unit × Profile × LeadsFile :=
  let entry := mkEntry p (isoformat now)
  match readLeads disk with
  | .error e => (.error e, p, disk)
  | .ok .notAList => (.error .attributeError, p, disk)
  | .ok (.list existing_leads) => (.ok (), p, .records (existing_leads ++ [entry]))

/-- `SDRTools.submit_lead` (agent.py lines 133-135): calls
`lead_state.save_to_disk()` and returns the acknowledgement string; an
exception raised inside `save_to_disk` propagates to the tool caller. -/
def SDRTools.submit_lead (p : Profile) (now : DateTime) (disk : LeadsFile) :
    Except PyError String × Profile × LeadsFile :=
  match LeadManager.save_to_disk p now disk with
  | (.ok _, p', d') => (.ok "Lead has been saved to the database.", p', d')
  | (.error e, p', d') => (.error e, p', d')

theorem isDigit_digitChar (n : Nat) : (digitChar n).isDigit = true := by
  unfold digitChar
  split <;> rfl

theorem takeDigits_append (l r : List Char) (h : l.all Char.isDigit = true) :
    takeDigits l.length (l ++ r) = some r := by
  induction l with
  | nil => rfl
  | cons c l ih =>
      simp only [List.all_cons, Bool.and_eq_true] at h
      simp only [List.length_cons, List.cons_append, takeDigits, h.1, if_true]
      exact ih h.2

theorem pad2_all (n : Nat) : (pad2 n).all Char.isDigit = true := by
  simp [pad2, isDigit_digitChar]

theorem pad4_all (n : Nat) : (pad4 n).all Char.isDigit = true := by
  simp [pad4, isDigit_digitChar]

theorem pad6_all (n : Nat) : (pad6 n).all Char.isDigit = true := by
  simp [pad6, isDigit_digitChar]

theorem takeDigits_pad4 (n : Nat) (r : List Char) :
    takeDigits 4 (pad4 n ++ r) = some r :=
  takeDigits_append (pad4 n) r (pad4_all n)

theorem takeDigits_pad2 (n : Nat) (r : List Char) :
    takeDigits 2 (pad2 n ++ r) = some r :=
  takeDigits_append (pad2 n) r (pad2_all n)

theorem takeDigits_pad6 (n : Nat) : takeDigits 6 (pad6 n) = some [] := by
  have h := takeDigits_append (pad6 n) [] (pad6_all n)
  simpa using h

theorem takeDigits_pad2_nil (n : Nat) : takeDigits 2 (pad2 n) = some [] := by
  have h := takeDigits_append (pad2 n) [] (pad2_all n)
  simpa using h

theorem takeChar_cons (c : Char) (l : List Char) : takeChar c (c :: l) = some l := by
  simp [takeChar]

/-- `datetime.isoformat()` output passes the ISO-8601 shape check. -/
theorem iso_isISO8601 (d : DateTime) : isISO8601 (isoformat d) = true := by
  by_cases hmu : d.microsecond = 0 <;>
    simp [isISO8601, isoformat, isoChars, hmu, takeDigits_pad4, takeDigits_pad2,
      takeDigits_pad6, takeDigits_pad2_nil, takeChar_cons]

/-- C4, counterexample: not every storage read failure is recovered.  On a
leads file holding non-UTF-8 bytes `json.load` raises `UnicodeDecodeError`,
on an OS-level read failure `open` raises `OSError`, and on valid JSON that
is not a list `existing_leads.append` raises `AttributeError`; none of these
is `json.JSONDecodeError`, so each propagates out of `submit_lead` — an
error is surfaced to the caller and nothing is appended. -/
theorem claim_C4_counterexample :
    (SDRTools.submit_lead ⟨some "Ana", none, none, some "chatbot", none, none⟩
        ⟨2025, 11, 9, 12, 30, 5, 0⟩ .nonUTF8).1 = .error .unicodeDecodeError ∧
    (SDRTools.submit_lead ⟨some "Ana", none, none, some "chatbot", none, none⟩
        ⟨2025, 11, 9, 12, 30, 5, 0⟩ .unreadable).1 = .error .osError ∧
    (SDRTools.submit_lead ⟨some "Ana", none, none, some "chatbot", none, none⟩
        ⟨2025, 11, 9, 12, 30, 5, 0⟩ .nonList).1 = .error .attributeError ∧
    (SDRTools.submit_lead ⟨some "Ana", none, none, some "chatbot", none, none⟩
        ⟨2025, 11, 9, 12, 30, 5, 0⟩ .nonUTF8).2.2 = .nonUTF8 :=
  ⟨rfl, rfl, rfl, rfl⟩

/-- C4, amended: `submit_lead` recovers exactly the two read-path failures
the code handles — a missing backing file, and existing UTF-8 content that
fails JSON decoding (`json.JSONDecodeError`) — by treating the prior content
as the empty sequence and returning the normal acknowledgement.  Every other
read failure — non-UTF-8 bytes (`UnicodeDecodeError`), an OS-level read
error (`OSError`), or valid-JSON content that is not a list
(`AttributeError` at the append) — propagates out of `submit_lead`, and
nothing is appended. -/
theorem claim_C4_read_failure_paths (p : Profile) (now : DateTime) :
    SDRTools.submit_lead p now .absent =
      (.ok "Lead has been saved to the database.", p,
        .records [mkEntry p (isoformat now)]) ∧
    SDRTools.submit_lead p now .undecodable =
      (.ok "Lead has been saved to the database.", p,
        .records [mkEntry p (isoformat now)]) ∧
    SDRTools.submit_lead p now .nonUTF8 = (.error .unicodeDecodeError, p, .nonUTF8) ∧
    SDRTools.submit_lead p now .unreadable = (.error .osError, p, .unreadable) ∧
    SDRTools.submit_lead p now .nonList = (.error .attributeError, p, .nonList) :=
  ⟨rfl, rfl, rfl, rfl, rfl⟩

/-- C5: on a readable store holding the records `l`, one `submit_lead` call
writes back `l` with exactly one new record appended: the prior records are
unchanged and in their original order, and the new record sits after them. -/
theorem claim_C5_append_exactly_one (p : Profile) (now : DateTime) (l : List Entry) :
    (SDRTools.submit_lead p now (.records l)).2.2 =
      .records (l ++ [mkEntry p (isoformat now)]) ∧
    (l ++ [mkEntry p (isoformat now)]).take l.length = l ∧
    (l ++ [mkEntry p (isoformat now)]).length = l.length + 1 ∧
    (l ++ [mkEntry p (isoformat now)]).drop l.length = [mkEntry p (isoformat now)] := by
  refine ⟨rfl, ?_, by simp, ?_⟩
  · simp
  · simp

/-- C8: the record `submit_lead` appends is a snapshot of the current Lead
Profile — exactly its six fields with their current values plus one added
`timestamp` field in ISO-8601 format — and the full updated sequence is
written back to the store.  The bounds are the ranges `datetime` guarantees
for its components. -/
theorem claim_C8_snapshot_with_timestamp (p : Profile) (now : DateTime) (l : List Entry)
    (hy : now.year ≤ 9999) (hmo : now.month ≤ 12) (hd : now.day ≤ 31)
    (hh : now.hour ≤ 23) (hmi : now.minute ≤ 59) (hs : now.second ≤ 59)
    (hu : now.microsecond ≤ 999999) :
    (SDRTools.submit_lead p now (.records l)).2.2 =
      .records (l ++
        [{ name := p.name, company := p.company, email := p.email,
           use_case := p.use_case, budget := p.budget, timeline := p.timeline,
           timestamp := isoformat now }]) ∧
    isISO8601 (isoformat now) = true :=
  ⟨rfl, iso_isISO8601 now⟩

/-- C8 witness: the snapshot theorem applied at a concrete profile, instant
and store. -/
theorem claim_C8_snapshot_with_timestamp_witness :
    (SDRTools.submit_lead ⟨some "Ana", none, none, some "chatbot", none, none⟩
        ⟨2025, 11, 9, 12, 30, 5, 0⟩ (.records [])).2.2 =
      .records ([] ++
        [{ name := some "Ana", company := none, email := none,
           use_case := some "chatbot", budget := none, timeline := none,
           timestamp := isoformat ⟨2025, 11, 9, 12, 30, 5, 0⟩ }]) ∧
    isISO8601 (isoformat ⟨2025, 11, 9, 12, 30, 5, 0⟩) = true :=
  claim_C8_snapshot_with_timestamp ⟨some "Ana", none, none, some "chatbot", none, none⟩
    ⟨2025, 11, 9, 12, 30, 5, 0⟩ [] (by decide) (by decide) (by decide) (by decide)
    (by decide) (by decide) (by decide)

/-- C10: `submit_lead` never mutates the in-memory Lead Profile: the profile
after the call equals the profile before it, so a later `update_lead_profile`
or `submit_lead` behaves exactly as it would have without the earlier
submission. -/
theorem claim_C10_submit_preserves_profile (p : Profile) (now : DateTime) (disk : LeadsFile) :
    (SDRTools.submit_lead p now disk).2.1 = p ∧
    (∀ name company email use_case budget timeline : Option String,
      SDRTools.update_lead_profile (SDRTools.submit_lead p now disk).2.1
          name company email use_case budget timeline =
        SDRTools.update_lead_profile p name company email use_case budget timeline) ∧
    (∀ (now' : DateTime) (disk' : LeadsFile),
      SDRTools.submit_lead (SDRTools.submit_lead p now disk).2.1 now' disk' =
        SDRTools.submit_lead p now' disk') := by
  have h : (SDRTools.submit_lead p now disk).2.1 = p := by
    cases disk <;> rfl
  refine ⟨h, ?_, ?_⟩
  · intro name company email use_case budget timeline
    rw [h]
  · intro now' disk'
    rw [h]

/-- One tool call arriving in a worker process, tagged with the id of the
conversation whose `SDRTools` instance received it. -/
inductive ToolCall where
  | updateCall (sid : Nat) (name company email use_case budget timeline : Option String)
  | submitCall (sid : Nat) (now : DateTime)
deriving DecidableEq, Repr

/-- The mutable state of one worker process: the module-level global
`lead_state = LeadManager()` (agent.py line 110), which every `SDRTools`
instance created in that process closes over, plus the shared leads file. -/
structure WorkerState where
  lead_state : Profile
  disk : LeadsFile
deriving DecidableEq, Repr

/-- Dispatch one tool call in the worker process.  Both tool bodies
(agent.py lines 126-129 and 134) refer to the module global `lead_state`,
not to any per-conversation state, so the step ignores which conversation
issued the call. -/
def workerStep (st : WorkerState) : ToolCall → WorkerState
  | .updateCall _sid name company email use_case budget timeline =>
      { st with lead_state :=
          (SDRTools.update_lead_profile st.lead_state
            name company email use_case budget timeline).2 }
  | .submitCall _sid now =>
      let r := SDRTools.submit_lead st.lead_state now st.disk
      { lead_state := r.2.1, disk := r.2.2 }

/-- Run a sequence of tool calls, possibly from several conversations, in
one worker process. -/
def runWorker (calls : List ToolCall) (st : WorkerState) : WorkerState :=
  calls.foldl workerStep st

/-- C1 fails on the code: `lead_state` is one module-level global, so tool
calls from distinct conversations read and write the same Lead Profile.
Concretely, after conversation 1 calls
`update_lead_profile(name="Ana", use_case="chatbot")`, a `submit_lead`
issued by conversation 2 persists conversation 1's data; and in general the
worker step does not depend on which conversation issued the call. -/
theorem claim_C1_lead_state_is_shared :
    (runWorker
        [.updateCall 1 (some "Ana") none none (some "chatbot") none none,
         .submitCall 2 ⟨2025, 11, 9, 12, 30, 5, 0⟩]
        ⟨LeadManager.initProfile, .absent⟩).disk =
      .records [⟨some "Ana", none, none, some "chatbot", none, none,
        isoformat ⟨2025, 11, 9, 12, 30, 5, 0⟩⟩] ∧
    (∀ (st : WorkerState) (sid sid' : Nat) (name company email use_case budget timeline : Option String),
      workerStep st (.updateCall sid name company email use_case budget timeline) =
        workerStep st (.updateCall sid' name company email use_case budget timeline)) ∧
    (∀ (st : WorkerState) (sid sid' : Nat) (now : DateTime),
      workerStep st (.submitCall sid now) = workerStep st (.submitCall sid' now)) :=
  ⟨rfl, fun _ _ _ _ _ _ _ _ _ => rfl, fun _ _ _ _ => rfl⟩

/-- One session's in-flight `save_to_disk` call, split at its file-system
boundary: its first step runs the read half against the leads file
(agent.py lines 95-101), its second step writes `existing_leads ++ [entry]`
back (agent.py lines 103-106).  Nothing in `save_to_disk` locks the file
between the two steps.  `pc` is 0 before the read, 1 after a successful
read, 2 after the write, and 3 when the read raised and the save aborted
without writing. -/
structure PendingSave where
  entry : Entry
  pc : Nat
  existing_leads : List Entry
deriving DecidableEq, Repr

/-- Perform one file-system step of an in-flight `save_to_disk`. -/
def saveStep (disk : LeadsFile) (s : PendingSave) : LeadsFile × PendingSave :=
  match s.pc with
  | 0 =>
      match readLeads disk with
      | .ok (.list l) => (disk, { s with existing_leads := l, pc := 1 })
      | _ => (disk, { s with pc := 3 })
  | 1 => (.records (s.existing_leads ++ [s.entry]), { s with pc := 2 })
  | _ => (disk, s)

/-- Two concurrent `submit_lead` calls from two different sessions sharing
the one leads file. -/
structure TwoSaves where
  disk : LeadsFile
  a : PendingSave
  b : PendingSave
deriving DecidableEq, Repr

/-- Let the scheduled session (`true` for `a`, `false` for `b`) perform its
next file-system step. -/
def twoStep (st : TwoSaves) (who : Bool) : TwoSaves :=
  if who then
    let r := saveStep st.disk st.a
    { st with disk := r.1, a := r.2 }
  else
    let r := saveStep st.disk st.b
    { st with disk := r.1, b := r.2 }

/-- Run an interleaving of the two sessions' file-system steps. -/
def runSchedule (sched : List Bool) (st : TwoSaves) : TwoSaves :=
  sched.foldl twoStep st

/-- The record session `a` submits in the concurrency scenario. -/
def entryA : Entry :=
  ⟨some "Ana", none, none, some "chatbot", none, none, "2025-11-09T12:00:00"⟩

/-- The record session `b` submits in the concurrency scenario. -/
def entryB : Entry :=
  ⟨some "Bob", none, none, some "webapp", none, none, "2025-11-09T12:00:01"⟩

/-- C3 fails on the code: `save_to_disk` does not serialize its
read-modify-write.  Under the interleaving read-a, read-b, write-a, write-b
both submissions complete, yet the store ends with only session `b`'s
record — session `a`'s append is lost.  Under the serialized schedule
(a's two steps, then b's) both records survive, so the loss is exactly the
missing mutual exclusion. -/
theorem claim_C3_lost_update :
    (runSchedule [true, false, true, false]
        ⟨.absent, ⟨entryA, 0, []⟩, ⟨entryB, 0, []⟩⟩).a.pc = 2 ∧
    (runSchedule [true, false, true, false]
        ⟨.absent, ⟨entryA, 0, []⟩, ⟨entryB, 0, []⟩⟩).b.pc = 2 ∧
    (runSchedule [true, false, true, false]
        ⟨.absent, ⟨entryA, 0, []⟩, ⟨entryB, 0, []⟩⟩).disk = .records [entryB] ∧
    (runSchedule [true, true, false, false]
        ⟨.absent, ⟨entryA, 0, []⟩, ⟨entryB, 0, []⟩⟩).disk = .records [entryA, entryB] := by
  refine ⟨rfl, rfl, rfl, rfl⟩

end SDRAgent
